import Mathlib

/-!
Verification of pythoneda-artifact/git: the `GitArtifact` event handler in
`src/pythoneda/artifact/git/git_artifact.py`.

The handler `listen_ChangeStagingCodeRequested` receives a
`ChangeStagingCodeRequested` event carrying a change description (repository
folder, repository URL, branch, nullable unified-diff text) and a correlation
id.  When the diff text is `None` it returns without emitting anything;
otherwise it assembles a Jupyterlab code request (an ordered document of
markdown and code segments), wraps it into a `ChangeStagingCodeDescribed`
event carrying the same correlation id, emits that event and returns it.

The diff payload is embedded into the generated code via Python's
`json.dumps`; we model that encoder (for strings, with its default
`ensure_ascii=True`) together with a JSON string reader used to state that the
encoding is non-corrupting (round-trip).
-/

/-- The double-quote character, kept as a named constant. -/
def quoteChar : Char := Char.ofNat 34

/-- The backslash character, kept as a named constant. -/
def backslashChar : Char := Char.ofNat 92

/-- The newline character. -/
def newlineChar : Char := Char.ofNat 10

/-- Lowercase hexadecimal digit, as produced by Python's `json.dumps`
escape sequences. -/
def hexDigitChar (n : Nat) : Char :=
  if n < 10 then Char.ofNat (48 + n) else Char.ofNat (87 + n)

/-- Four lowercase hex digits of `n`, most significant first (the `XXXX` of
a `\uXXXX` escape). -/
def hex4 (n : Nat) : List Char :=
  [hexDigitChar (n / 4096 % 16), hexDigitChar (n / 256 % 16),
   hexDigitChar (n / 16 % 16), hexDigitChar (n % 16)]

/-- How Python's `json.dumps` (default `ensure_ascii=True`) renders one
character of a string: quote and backslash get a backslash escape, the common
control characters get their short escapes, every other character outside
printable ASCII becomes `\uXXXX` (astral characters become a surrogate pair),
and printable ASCII stays as-is. -/
def escapeChar (c : Char) : List Char :=
  if c = quoteChar then [backslashChar, quoteChar]
  else if c = backslashChar then [backslashChar, backslashChar]
  else if c.toNat = 10 then [backslashChar, 'n']
  else if c.toNat = 13 then [backslashChar, 'r']
  else if c.toNat = 9 then [backslashChar, 't']
  else if c.toNat = 8 then [backslashChar, 'b']
  else if c.toNat = 12 then [backslashChar, 'f']
  else if c.toNat < 32 ∨ 126 < c.toNat then
    if c.toNat < 65536 then
      backslashChar :: 'u' :: hex4 c.toNat
    else
      backslashChar :: 'u' :: hex4 (55296 + (c.toNat - 65536) / 1024)
        ++ backslashChar :: 'u' :: hex4 (56320 + (c.toNat - 65536) % 1024)
  else [c]

/-- Python's `json.dumps` on a string: a double-quoted literal whose body is
the concatenation of the per-character escapes. -/
def jsonDumps (s : String) : String :=
  ⟨quoteChar :: (s.data.flatMap escapeChar ++ [quoteChar])⟩

/-- Value of one hexadecimal digit character (either case), if any. -/
def hexVal (c : Char) : Option Nat :=
  if 48 ≤ c.toNat ∧ c.toNat ≤ 57 then some (c.toNat - 48)
  else if 97 ≤ c.toNat ∧ c.toNat ≤ 102 then some (c.toNat - 87)
  else if 65 ≤ c.toNat ∧ c.toNat ≤ 70 then some (c.toNat - 55)
  else none

/-- Reader for the body of a JSON string literal: undoes the escape
sequences, rejecting raw quotes, raw control characters, dangling or unknown
escapes, and `\uXXXX` escapes in the surrogate range.  This is the inverse
direction used to state that `jsonDumps`' escaping is non-corrupting. -/
def unescape : List Char → Option (List Char)
  | [] => some []
  | '\\' :: 'u' :: h1 :: h2 :: h3 :: h4 :: rest =>
    (hexVal h1).bind (fun a => (hexVal h2).bind (fun b =>
      (hexVal h3).bind (fun c => (hexVal h4).bind (fun d =>
        if 4096 * a + 256 * b + 16 * c + d < 55296 ∨
            57343 < 4096 * a + 256 * b + 16 * c + d then
          (unescape rest).map
            (fun l => Char.ofNat (4096 * a + 256 * b + 16 * c + d) :: l)
        else none))))
  | '\\' :: 'n' :: rest => (unescape rest).map (fun l => newlineChar :: l)
  | '\\' :: 'r' :: rest => (unescape rest).map (fun l => Char.ofNat 13 :: l)
  | '\\' :: 't' :: rest => (unescape rest).map (fun l => Char.ofNat 9 :: l)
  | '\\' :: 'b' :: rest => (unescape rest).map (fun l => Char.ofNat 8 :: l)
  | '\\' :: 'f' :: rest => (unescape rest).map (fun l => Char.ofNat 12 :: l)
  | '\\' :: '/' :: rest => (unescape rest).map (fun l => '/' :: l)
  | '\\' :: '"' :: rest => (unescape rest).map (fun l => quoteChar :: l)
  | '\\' :: '\\' :: rest => (unescape rest).map (fun l => backslashChar :: l)
  | '\\' :: _ => none
  | c :: rest =>
    if c = quoteChar ∨ c.toNat < 32 then none
    else (unescape rest).map (fun l => c :: l)

/-- Reader for a whole JSON string literal: leading quote, body, closing
quote, nothing after. -/
def jsonLoads (s : String) : Option String :=
  match s.data with
  | [] => none
  | c :: rest =>
    if c = quoteChar then
      match rest.reverse with
      | [] => none
      | c2 :: revBody =>
        if c2 = quoteChar then (unescape revBody.reverse).map (fun l => ⟨l⟩)
        else none
    else none

/-! ## Data model

`PythonedaDependency`, the segments, and `JupyterlabCodeRequest` come from
`pythoneda.shared.code_requests`, a collaborator repository that is not part
of this one; they are modelled from the spec (§3, §4.1, §4.2): an ordered,
append-only document of markdown/code segments, where each code segment owns
a list of dependency declarations and the document's aggregate dependency
set is deduplicated by name with a first-seen-wins policy. -/

/-- Modelled from the spec: a Dependency Declaration
`\x7bname, version, optional source locator\x7d` (§3); the source constructs
them with `PythonedaDependency(name, version)`, leaving the locator absent. -/
structure PythonedaDependency where
  name : String
  version : String
  locator : Option String
deriving DecidableEq, Repr

/-- Modelled from the spec: a Document segment is either markdown text or
code text owning its dependency declarations (§3). -/
inductive Segment where
  | markdown (text : String)
  | code (text : String) (dependencies : List PythonedaDependency)
deriving DecidableEq, Repr

/-- The kind of a segment: markdown or code. -/
inductive SegmentKind where
  | markdown
  | code
deriving DecidableEq, Repr

/-- Kind of a segment. -/
def Segment.kind : Segment → SegmentKind
  | .markdown _ => .markdown
  | .code _ _ => .code

/-- Text of a segment. -/
def Segment.text : Segment → String
  | .markdown t => t
  | .code t _ => t

/-- Dependency declarations carried by a segment (markdown carries none). -/
def Segment.declaredDeps : Segment → List PythonedaDependency
  | .markdown _ => []
  | .code _ ds => ds

/-- Modelled from the spec: the Document (`JupyterlabCodeRequest` in the
source, from `pythoneda.shared.code_requests.jupyterlab`) is an ordered,
append-only sequence of segments (§4.2). -/
structure JupyterlabCodeRequest where
  segments : List Segment
deriving DecidableEq, Repr

/-- Modelled from the spec: `appendMarkdown` appends a markdown segment
(§4.2). -/
def JupyterlabCodeRequest.append_markdown (cr : JupyterlabCodeRequest)
    (text : String) : JupyterlabCodeRequest :=
  ⟨cr.segments ++ [Segment.markdown text]⟩

/-- Modelled from the spec: `appendCode` appends a code segment owning its
dependency declarations (§4.2). -/
def JupyterlabCodeRequest.append_code (cr : JupyterlabCodeRequest)
    (text : String) (deps : List PythonedaDependency) : JupyterlabCodeRequest :=
  ⟨cr.segments ++ [Segment.code text deps]⟩

/-- First-seen-wins deduplication by dependency name (§4.1): a later
declaration with an already-seen name is dropped, whatever its version or
locator. -/
def dedupByName : List PythonedaDependency → List PythonedaDependency
  | [] => []
  | d :: rest => d :: dedupByName (rest.filter (fun e => e.name ≠ d.name))
termination_by l => l.length
decreasing_by
  simp only [List.length_cons]
  exact Nat.lt_succ_of_le (List.length_filter_le _ _)

/-- Modelled from the spec: the Document's aggregate dependency set — the
declarations of its code segments in append order, deduplicated by name,
first seen wins (§4.2 `dependencies()`). -/
def JupyterlabCodeRequest.dependencies
    (cr : JupyterlabCodeRequest) : List PythonedaDependency :=
  dedupByName (cr.segments.flatMap Segment.declaredDeps)

/-! ## Events and the change description

`Change` lives in `pythoneda-shared-artifact-changes`; the handler reads its
`repository_folder`, `repository_url`, `branch` and `unidiff_text`
attributes and its `to_json` serialization, so those are what we model. -/

/-- The change description (spec §3): repository folder, repository URL,
branch, nullable unified-diff text. -/
structure Change where
  repository_folder : String
  repository_url : String
  branch : String
  unidiff_text : Option String
deriving DecidableEq, Repr

/-- Modelled from the spec: `Change.to_json` belongs to
`pythoneda-shared-artifact-changes`, outside this repository; the spec only
requires a serialized form of the Change Description from which the original
can be reconstructed (§4.3 step g).  We model it as the evident JSON object
of the modelled fields. -/
def Change.to_json (c : Change) : String :=
  "\x7b\"repository_folder\": " ++ jsonDumps c.repository_folder ++
    ", \"repository_url\": " ++ jsonDumps c.repository_url ++
    ", \"branch\": " ++ jsonDumps c.branch ++
    ", \"unidiff_text\": " ++
    (match c.unidiff_text with
     | some t => jsonDumps t
     | none => "null") ++ "\x7d"

/-- Inbound event: `ChangeStagingCodeRequested \x7bchange, id\x7d` (spec §6). -/
structure ChangeStagingCodeRequested where
  change : Change
  id : String
deriving DecidableEq, Repr

/-- Outbound event: `ChangeStagingCodeDescribed \x7bcode_request, id\x7d`,
built in the source as `ChangeStagingCodeDescribed(code_request, event.id)`. -/
structure ChangeStagingCodeDescribed where
  code_request : JupyterlabCodeRequest
  id : String
deriving DecidableEq, Repr

/-! ## The handler's hardcoded dependency list (source lines 92–121). -/

/-- The `dependencies` list built at the top of
`listen_ChangeStagingCodeRequested`: twenty `PythonedaDependency(name,
"latest")` entries. -/
def dependencies : List PythonedaDependency :=
  [⟨"dbus-next", "latest", none⟩,
   ⟨"grpcio", "latest", none⟩,
   ⟨"jupyterlab", "latest", none⟩,
   ⟨"pythoneda-artifact-code-request-application", "latest", none⟩,
   ⟨"pythoneda-artifact-code-request-infrastructure", "latest", none⟩,
   ⟨"pythoneda-shared-artifact-changes-events", "latest", none⟩,
   ⟨"pythoneda-shared-artifact-changes-events-infrastructure", "latest", none⟩,
   ⟨"pythoneda-shared-artifact-changes-shared", "latest", none⟩,
   ⟨"pythoneda-shared-code-requests-events", "latest", none⟩,
   ⟨"pythoneda-shared-code-requests-events-infrastructure", "latest", none⟩,
   ⟨"pythoneda-shared-code-requests-shared", "latest", none⟩,
   ⟨"pythoneda-shared-git-shared", "latest", none⟩,
   ⟨"pythoneda-shared-nix-flake-shared", "latest", none⟩,
   ⟨"pythoneda-shared-pythoneda-application", "latest", none⟩,
   ⟨"pythoneda-shared-pythoneda-banner", "latest", none⟩,
   ⟨"pythoneda-shared-pythoneda-domain", "latest", none⟩,
   ⟨"pythoneda-shared-pythoneda-infrastructure", "latest", none⟩,
   ⟨"requests", "latest", none⟩,
   ⟨"stringtemplate3", "latest", none⟩,
   ⟨"unidiff", "latest", none⟩]

/-! ## The generated segment texts (source lines 123–223)

Each definition transcribes one Python f-string of the handler verbatim,
with the interpolation holes becoming function arguments.  Python's
triple-quoted f-strings start with a newline and end with a newline plus
the eight spaces of the closing delimiter's indentation. -/

/-- The `introduction` markdown (lines 123–131). -/
def introduction (folder url branch unidiff : String) : String :=
  "\n# Git add\nThis is a request to add changes to the staging area in " ++ folder ++ "\n(cloned from " ++ url ++ ", branch " ++ branch ++ ").\nThe changes are the following:\n```\n" ++ unidiff ++ "\n```\n        "

/-- The `git_import_description` markdown (lines 133–136). -/
def git_import_description : String :=
  "\n## Dependencies\nThis code requires some dependencies from https://github.com/pythoneda-shared-git/shared:\n"

/-- The `git_import_code` code text (lines 138–145). -/
def git_import_code : String :=
  "\nimport asyncio\nimport logging\nfrom pythoneda.artifact.code_request.application import PythonedaContext\nfrom pythoneda.shared.git import GitAdd, GitAddAllFailed, GitApply, GitApplyFailed, GitStash, GitStashPushFailed\nimport tempfile\n\n        "

/-- The `create_diff_description` markdown (lines 147–150). -/
def create_diff_description : String :=
  "\n## Creating the diff file\nTo create a patch with the differences, we\x27ll use a temporary file.\n        "

/-- The `create_diff_code` code text (lines 152–156): the diff payload is
embedded through `json.dumps`, and the temporary file is created with
`delete=False`. -/
def create_diff_code (unidiff : String) : String :=
  "\npatchfile = tempfile.NamedTemporaryFile(mode=\x27w+\x27, delete=False)\npatchfile.write(" ++ jsonDumps unidiff ++ ")\npatchfile.close()\n        "

/-- The `git_stash_description` markdown (lines 158–161). -/
def git_stash_description : String :=
  "\n## git stash\nGit stash lets us keep the current changes in a safe place.\n        "

/-- The `git_stash_push_code` code text (lines 163–171): folder and
correlation id are interpolated verbatim. -/
def git_stash_push_code (folder id : String) : String :=
  "\nstash_id = \"\"\ntry:\n    stash_id = GitStash(\"" ++ folder ++ "\").push()\n    print(stash_id)\nexcept GitStashPushFailed as err:\n    _pythoneda_no_error_so_far = False\n    logging.getLogger(\"" ++ id ++ "\").error(err)\n        "

/-- The `git_apply_description` markdown (lines 173–176). -/
def git_apply_description : String :=
  "\n## git apply\nNow, let\x27s apply the requested changes to the repository.\n        "

/-- The `git_apply_code` code text (lines 178–184): a try/except around
`GitApply(folder).apply(patchfile.name)`; on failure the run-continues flag
is set to `False` and the error is logged under the correlation id. -/
def git_apply_code (folder id : String) : String :=
  "\ntry:\n    GitApply(\"" ++ folder ++ "\").apply(patchfile.name)\nexcept GitApplyFailed as err:\n    _pythoneda_no_error_so_far = False\n    logging.getLogger(\"" ++ id ++ "\").error(err)\n        "

/-- The `git_add_description` markdown (lines 186–189). -/
def git_add_description : String :=
  "\n## git add\nThe last step is adding the changes to the staging area.\n        "

/-- The `git_add_code` code text (lines 191–197): a try/except around
`GitAdd(folder).add_all()`; same failure discipline as the apply step. -/
def git_add_code (folder id : String) : String :=
  "\ntry:\n    GitAdd(\"" ++ folder ++ "\").add_all()\nexcept GitAddAllFailed as err:\n    _pythoneda_no_error_so_far = False\n    logging.getLogger(\"" ++ id ++ "\").error(err)\n        "

/-- The markdown introducing the emission step (lines 199–202; the source
reuses the variable name `git_add_description` for it). -/
def emit_event_description : String :=
  "\n## Emit event\nFinally, let\x27s emit the event that this code has been executed successfully.\n        "

/-- The emission code text (lines 204–223; the source reuses the variable
name `git_add_code` for it): reconstructs the change from
`json.dumps(event.change.to_json())` and emits `ChangeStaged` tagged with
the correlation id, with no condition on the run-continues flag. -/
def emit_event_code (c : Change) (id : String) : String :=
  "\nclass CodeRequest(PythonedaContext):\n\n    async def emit_event(self):\n        from pythoneda import EventEmitter, Ports\n        from pythoneda.shared.artifact_changes import Change\n        from pythoneda.shared.artifact_changes.events import ChangeStaged\n\n        print(\"Emitting ChangeStaged event\")\n        await Ports.instance().resolve(EventEmitter).emit(\n            ChangeStaged(\n                Change.from_json(\n                    " ++ jsonDumps c.to_json ++ "),\n                \x27" ++ id ++ "\x27))\n        print(\"ChangeStaged event emitted!\")\nimport nest_asyncio\nnest_asyncio.apply()\nloop = asyncio.get_event_loop()\nloop.run_until_complete(CodeRequest.main(\"" ++ id ++ "\"))\n        "

/-! ## The handler -/

/-- Observable outcome of one handler invocation: the returned value and the
events handed to the emission collaborator
(`Ports.instance().resolve(EventEmitter).emit`).  The info-logging side
channel is not modelled. -/
structure GitArtifactOutcome where
  result : Option ChangeStagingCodeDescribed
  emitted : List ChangeStagingCodeDescribed
deriving DecidableEq, Repr

/-- `GitArtifact.listen_ChangeStagingCodeRequested` (source lines 72–228):
if `event.change.unidiff_text` is `None` the handler logs and returns with
no emission; otherwise it appends the thirteen segments to a fresh
`JupyterlabCodeRequest` in the source's order, wraps the document and
`event.id` into a `ChangeStagingCodeDescribed`, emits it and returns it. -/
def listen_ChangeStagingCodeRequested
    (event : ChangeStagingCodeRequested) : GitArtifactOutcome :=
  match event.change.unidiff_text with
  | none => { result := none, emitted := [] }
  | some unidiff =>
    let cr : JupyterlabCodeRequest := ⟨[]⟩
    let cr := cr.append_markdown
      (introduction event.change.repository_folder event.change.repository_url
        event.change.branch unidiff)
    let cr := cr.append_markdown git_import_description
    let cr := cr.append_code git_import_code dependencies
    let cr := cr.append_markdown create_diff_description
    let cr := cr.append_code (create_diff_code unidiff) dependencies
    let cr := cr.append_markdown git_stash_description
    let cr := cr.append_code
      (git_stash_push_code event.change.repository_folder event.id) dependencies
    let cr := cr.append_markdown git_apply_description
    let cr := cr.append_code
      (git_apply_code event.change.repository_folder event.id) dependencies
    let cr := cr.append_markdown git_add_description
    let cr := cr.append_code
      (git_add_code event.change.repository_folder event.id) dependencies
    let cr := cr.append_markdown emit_event_description
    let cr := cr.append_code (emit_event_code event.change event.id) dependencies
    let result : ChangeStagingCodeDescribed := ⟨cr, event.id⟩
    { result := some result, emitted := [result] }

/-! ## Helper lemmas: hex digits and the `jsonDumps` round-trip -/

set_option maxRecDepth 200000

theorem hexVal_hexDigitChar (d : Nat) (h : d < 16) :
    hexVal (hexDigitChar d) = some d := by
  interval_cases d <;> decide

theorem unescape_hex (d1 d2 d3 d4 : Char) (k : List Char) :
    unescape (backslashChar :: 'u' :: d1 :: d2 :: d3 :: d4 :: k) =
    (hexVal d1).bind (fun a => (hexVal d2).bind (fun b =>
      (hexVal d3).bind (fun c => (hexVal d4).bind (fun d =>
        if 4096 * a + 256 * b + 16 * c + d < 55296 ∨
            57343 < 4096 * a + 256 * b + 16 * c + d then
          (unescape k).map
            (fun l => Char.ofNat (4096 * a + 256 * b + 16 * c + d) :: l)
        else none)))) := rfl

theorem unescape_escapeChar_append (c : Char) (hc : c.toNat < 65536)
    {k m : List Char} (hk : unescape k = some m) :
    unescape (escapeChar c ++ k) = some (c :: m) := by
  by_cases h1 : c = quoteChar
  · subst h1
    show unescape (backslashChar :: quoteChar :: k) = some (quoteChar :: m)
    have e : unescape (backslashChar :: quoteChar :: k) =
        (unescape k).map (fun l => quoteChar :: l) := rfl
    rw [e, hk]
    rfl
  by_cases h2 : c = backslashChar
  · subst h2
    show unescape (backslashChar :: backslashChar :: k) = some (backslashChar :: m)
    have e : unescape (backslashChar :: backslashChar :: k) =
        (unescape k).map (fun l => backslashChar :: l) := rfl
    rw [e, hk]
    rfl
  by_cases h3 : c.toNat = 10
  · have hx : c = Char.ofNat 10 := by rw [← Char.ofNat_toNat c, h3]
    subst hx
    show unescape (backslashChar :: 'n' :: k) = some (newlineChar :: m)
    have e : unescape (backslashChar :: 'n' :: k) =
        (unescape k).map (fun l => newlineChar :: l) := rfl
    rw [e, hk]
    rfl
  by_cases h4 : c.toNat = 13
  · have hx : c = Char.ofNat 13 := by rw [← Char.ofNat_toNat c, h4]
    subst hx
    show unescape (backslashChar :: 'r' :: k) = some (Char.ofNat 13 :: m)
    have e : unescape (backslashChar :: 'r' :: k) =
        (unescape k).map (fun l => Char.ofNat 13 :: l) := rfl
    rw [e, hk]
    rfl
  by_cases h5 : c.toNat = 9
  · have hx : c = Char.ofNat 9 := by rw [← Char.ofNat_toNat c, h5]
    subst hx
    show unescape (backslashChar :: 't' :: k) = some (Char.ofNat 9 :: m)
    have e : unescape (backslashChar :: 't' :: k) =
        (unescape k).map (fun l => Char.ofNat 9 :: l) := rfl
    rw [e, hk]
    rfl
  by_cases h6 : c.toNat = 8
  · have hx : c = Char.ofNat 8 := by rw [← Char.ofNat_toNat c, h6]
    subst hx
    show unescape (backslashChar :: 'b' :: k) = some (Char.ofNat 8 :: m)
    have e : unescape (backslashChar :: 'b' :: k) =
        (unescape k).map (fun l => Char.ofNat 8 :: l) := rfl
    rw [e, hk]
    rfl
  by_cases h7 : c.toNat = 12
  · have hx : c = Char.ofNat 12 := by rw [← Char.ofNat_toNat c, h7]
    subst hx
    show unescape (backslashChar :: 'f' :: k) = some (Char.ofNat 12 :: m)
    have e : unescape (backslashChar :: 'f' :: k) =
        (unescape k).map (fun l => Char.ofNat 12 :: l) := rfl
    rw [e, hk]
    rfl
  by_cases h8 : c.toNat < 32 ∨ 126 < c.toNat
  · have hesc : escapeChar c = backslashChar :: 'u' :: hex4 c.toNat := by
      unfold escapeChar
      rw [if_neg h1, if_neg h2, if_neg h3, if_neg h4, if_neg h5, if_neg h6,
        if_neg h7, if_pos h8, if_pos hc]
    rw [hesc]
    show unescape (backslashChar :: 'u' ::
      (hexDigitChar (c.toNat / 4096 % 16) :: hexDigitChar (c.toNat / 256 % 16) ::
        hexDigitChar (c.toNat / 16 % 16) :: hexDigitChar (c.toNat % 16) :: k)) =
      some (c :: m)
    rw [unescape_hex,
      hexVal_hexDigitChar _ (Nat.mod_lt _ (by norm_num)),
      hexVal_hexDigitChar _ (Nat.mod_lt _ (by norm_num)),
      hexVal_hexDigitChar _ (Nat.mod_lt _ (by norm_num)),
      hexVal_hexDigitChar _ (Nat.mod_lt _ (by norm_num))]
    simp only [Option.some_bind]
    have harith : 4096 * (c.toNat / 4096 % 16) + 256 * (c.toNat / 256 % 16) +
        16 * (c.toNat / 16 % 16) + c.toNat % 16 = c.toNat := by omega
    rw [harith]
    have hvalid : c.toNat < 55296 ∨ (57343 < c.toNat ∧ c.toNat < 1114112) :=
      c.valid
    rw [if_pos (hvalid.imp id And.left), hk, Char.ofNat_toNat]
    rfl
  · have hesc : escapeChar c = [c] := by
      unfold escapeChar
      rw [if_neg h1, if_neg h2, if_neg h3, if_neg h4, if_neg h5, if_neg h6,
        if_neg h7, if_neg h8]
    rw [hesc]
    show unescape (c :: k) = some (c :: m)
    have hlo : 32 ≤ c.toNat := by omega
    have hhi : c.toNat ≤ 126 := by omega
    have hq : c.toNat ≠ 34 := fun hn => h1 (by
      rw [← Char.ofNat_toNat c, hn]; rfl)
    have hbs : c.toNat ≠ 92 := fun hn => h2 (by
      rw [← Char.ofNat_toNat c, hn]; rfl)
    have hcn : c = Char.ofNat c.toNat := (Char.ofNat_toNat c).symm
    rw [hcn]
    generalize c.toNat = n at hlo hhi hq hbs
    interval_cases n <;>
      first
        | (exact absurd rfl hq)
        | (exact absurd rfl hbs)
        | (show Option.map _ (unescape k) = _
           rw [hk]
           rfl)

theorem unescape_flatMap_escapeChar (l : List Char)
    (h : ∀ c ∈ l, c.toNat < 65536) :
    unescape (l.flatMap escapeChar) = some l := by
  induction l with
  | nil => rfl
  | cons c t ih =>
    rw [List.flatMap_cons]
    exact unescape_escapeChar_append c (h c (List.mem_cons_self c t))
      (ih fun x hx => h x (List.mem_cons_of_mem c hx))

theorem jsonLoads_jsonDumps (s : String) (h : ∀ c ∈ s.data, c.toNat < 65536) :
    jsonLoads (jsonDumps s) = some s := by
  show jsonLoads ⟨quoteChar :: (s.data.flatMap escapeChar ++ [quoteChar])⟩ = some s
  unfold jsonLoads
  simp only [List.reverse_append, List.reverse_cons, List.reverse_nil,
    List.nil_append, List.singleton_append]
  rw [if_true, if_true, List.reverse_reverse, unescape_flatMap_escapeChar s.data h]
  rfl

/-! ## `jsonDumps` output is ASCII (Python's `ensure_ascii=True`) -/

theorem hexDigitChar_toNat_lt (d : Nat) (h : d < 16) :
    (hexDigitChar d).toNat < 128 := by
  interval_cases d <;> decide

theorem mem_hex4_toNat_lt (n : Nat) (x : Char) (hx : x ∈ hex4 n) :
    x.toNat < 128 := by
  simp only [hex4, List.mem_cons, List.not_mem_nil, or_false] at hx
  rcases hx with h | h | h | h <;> subst h <;>
    exact hexDigitChar_toNat_lt _ (Nat.mod_lt _ (by norm_num))

theorem mem_escapeChar_toNat_lt (c x : Char) (hx : x ∈ escapeChar c) :
    x.toNat < 128 := by
  unfold escapeChar at hx
  split_ifs at hx with h1 h2 h3 h4 h5 h6 h7 h8 h9
  · simp only [List.mem_cons, List.not_mem_nil, or_false] at hx
    rcases hx with h | h <;> subst h <;> decide
  · simp only [List.mem_cons, List.not_mem_nil, or_false] at hx
    rcases hx with h | h <;> subst h <;> decide
  · simp only [List.mem_cons, List.not_mem_nil, or_false] at hx
    rcases hx with h | h <;> subst h <;> decide
  · simp only [List.mem_cons, List.not_mem_nil, or_false] at hx
    rcases hx with h | h <;> subst h <;> decide
  · simp only [List.mem_cons, List.not_mem_nil, or_false] at hx
    rcases hx with h | h <;> subst h <;> decide
  · simp only [List.mem_cons, List.not_mem_nil, or_false] at hx
    rcases hx with h | h <;> subst h <;> decide
  · simp only [List.mem_cons, List.not_mem_nil, or_false] at hx
    rcases hx with h | h <;> subst h <;> decide
  · simp only [List.mem_cons] at hx
    rcases hx with h | h | h
    · subst h; decide
    · subst h; decide
    · exact mem_hex4_toNat_lt _ _ h
  · simp only [List.cons_append, List.mem_cons, List.mem_append,
      List.mem_cons, List.not_mem_nil, or_false] at hx
    rcases hx with h | h | h | h | h
    · subst h; decide
    · subst h; decide
    · exact mem_hex4_toNat_lt _ _ h
    · subst h; decide
    · rcases h with h | h
      · subst h; decide
      · exact mem_hex4_toNat_lt _ _ h
  · simp only [List.mem_cons, List.not_mem_nil, or_false] at hx
    subst hx
    omega

theorem mem_jsonDumps_toNat_lt (s : String) (x : Char)
    (hx : x ∈ (jsonDumps s).data) : x.toNat < 128 := by
  have hx' : x ∈ quoteChar :: (s.data.flatMap escapeChar ++ [quoteChar]) := hx
  simp only [List.mem_cons, List.mem_append, List.mem_flatMap,
    List.not_mem_nil, or_false] at hx'
  rcases hx' with h | ⟨c, _, h⟩ | h
  · subst h; decide
  · exact mem_escapeChar_toNat_lt c x h
  · subst h; decide

theorem mem_to_json_toNat_lt (c : Change) (x : Char)
    (hx : x ∈ (Change.to_json c).data) : x.toNat < 65536 := by
  unfold Change.to_json at hx
  rcases hu : c.unidiff_text with _ | t <;> rw [hu] at hx <;>
    simp only [String.data_append, List.mem_append] at hx
  · rcases hx with ((((((((h | h) | h) | h) | h) | h) | h) | h) | h)
    · exact (by decide :
        ∀ y ∈ ("\x7b\"repository_folder\": " : String).data, y.toNat < 65536) x h
    · exact lt_trans (mem_jsonDumps_toNat_lt _ _ h) (by norm_num)
    · exact (by decide :
        ∀ y ∈ (", \"repository_url\": " : String).data, y.toNat < 65536) x h
    · exact lt_trans (mem_jsonDumps_toNat_lt _ _ h) (by norm_num)
    · exact (by decide :
        ∀ y ∈ (", \"branch\": " : String).data, y.toNat < 65536) x h
    · exact lt_trans (mem_jsonDumps_toNat_lt _ _ h) (by norm_num)
    · exact (by decide :
        ∀ y ∈ (", \"unidiff_text\": " : String).data, y.toNat < 65536) x h
    · exact (by decide :
        ∀ y ∈ ("null" : String).data, y.toNat < 65536) x h
    · exact (by decide :
        ∀ y ∈ ("\x7d" : String).data, y.toNat < 65536) x h
  · rcases hx with ((((((((h | h) | h) | h) | h) | h) | h) | h) | h)
    · exact (by decide :
        ∀ y ∈ ("\x7b\"repository_folder\": " : String).data, y.toNat < 65536) x h
    · exact lt_trans (mem_jsonDumps_toNat_lt _ _ h) (by norm_num)
    · exact (by decide :
        ∀ y ∈ (", \"repository_url\": " : String).data, y.toNat < 65536) x h
    · exact lt_trans (mem_jsonDumps_toNat_lt _ _ h) (by norm_num)
    · exact (by decide :
        ∀ y ∈ (", \"branch\": " : String).data, y.toNat < 65536) x h
    · exact lt_trans (mem_jsonDumps_toNat_lt _ _ h) (by norm_num)
    · exact (by decide :
        ∀ y ∈ (", \"unidiff_text\": " : String).data, y.toNat < 65536) x h
    · exact lt_trans (mem_jsonDumps_toNat_lt _ _ h) (by norm_num)
    · exact (by decide :
        ∀ y ∈ ("\x7d" : String).data, y.toNat < 65536) x h

/-! ## First-seen-wins deduplication -/

theorem find?_filter_of_imp {α : Type} (l : List α) (p q : α → Bool)
    (h : ∀ x, p x = true → q x = true) :
    (l.filter q).find? p = l.find? p := by
  induction l with
  | nil => rfl
  | cons a t ih =>
    by_cases hq : q a
    · rw [List.filter_cons_of_pos hq]
      by_cases hp : p a
      · rw [List.find?_cons_of_pos _ hp, List.find?_cons_of_pos _ hp]
      · rw [List.find?_cons_of_neg _ hp, List.find?_cons_of_neg _ hp]
        exact ih
    · rw [List.filter_cons_of_neg hq,
        List.find?_cons_of_neg _ (fun hp => hq (h a hp))]
      exact ih

theorem filter_dedupByName (l : List PythonedaDependency) (n : String) :
    (dedupByName l).filter (fun d => d.name == n) =
      (l.find? (fun d => d.name == n)).toList := by
  induction l using dedupByName.induct with
  | case1 => simp [dedupByName]
  | case2 d rest ih =>
    rw [dedupByName]
    by_cases hd : d.name = n
    · rw [List.filter_cons_of_pos (by simp [hd]),
        List.find?_cons_of_pos _ (by simp [hd])]
      have hnone :
          ((rest.filter (fun e => e.name ≠ d.name)).find?
            (fun d => d.name == n)) = none := by
        rw [List.find?_eq_none]
        intro x hx
        simp only [List.mem_filter, ne_eq, decide_not, Bool.not_eq_eq_eq_not,
          Bool.not_true, decide_eq_false_iff_not] at hx
        simp only [beq_iff_eq]
        rw [hd] at hx
        exact hx.2
      rw [ih, hnone]
      rfl
    · rw [List.filter_cons_of_neg (by simp [hd]),
        List.find?_cons_of_neg _ (by simp [hd]), ih,
        find?_filter_of_imp]
      intro x hx
      simp only [beq_iff_eq] at hx
      simp only [hx, ne_eq, decide_eq_true_eq]
      exact fun hh => hd hh.symm

/-! ## Decompositions of the generated code templates

These re-expose, inside each template, the `logging.getLogger("<id>")` call
and the quoted correlation id, which straddle the f-string's literal chunks
and interpolation holes. -/

theorem git_stash_push_code_decomp (f i : String) :
    git_stash_push_code f i =
      "\nstash_id = \"\"\ntry:\n    stash_id = GitStash(\"" ++ f ++
        "\").push()\n    print(stash_id)\nexcept GitStashPushFailed as err:\n    _pythoneda_no_error_so_far = False\n    " ++
        ("logging.getLogger(\"" ++ i ++ "\").error(err)") ++ "\n        " := by
  apply String.ext
  simp only [git_stash_push_code, String.data_append, List.append_assoc]
  have h3 : ("\").error(err)" : String).data ++ ("\n        " : String).data =
      ("\").error(err)\n        " : String).data := by decide
  have h2 : ∀ X : List Char,
      ("\").push()\n    print(stash_id)\nexcept GitStashPushFailed as err:\n    _pythoneda_no_error_so_far = False\n    " : String).data ++
        (("logging.getLogger(\"" : String).data ++ X) =
      ("\").push()\n    print(stash_id)\nexcept GitStashPushFailed as err:\n    _pythoneda_no_error_so_far = False\n    logging.getLogger(\"" : String).data ++ X := by
    intro X
    rw [← List.append_assoc]
    congr 1
  rw [h3, h2]

theorem git_apply_code_decomp (f i : String) :
    git_apply_code f i =
      "\ntry:\n    GitApply(\"" ++ f ++
        "\").apply(patchfile.name)\nexcept GitApplyFailed as err:\n    _pythoneda_no_error_so_far = False\n    " ++
        ("logging.getLogger(\"" ++ i ++ "\").error(err)") ++ "\n        " := by
  apply String.ext
  simp only [git_apply_code, String.data_append, List.append_assoc]
  have h3 : ("\").error(err)" : String).data ++ ("\n        " : String).data =
      ("\").error(err)\n        " : String).data := by decide
  have h2 : ∀ X : List Char,
      ("\").apply(patchfile.name)\nexcept GitApplyFailed as err:\n    _pythoneda_no_error_so_far = False\n    " : String).data ++
        (("logging.getLogger(\"" : String).data ++ X) =
      ("\").apply(patchfile.name)\nexcept GitApplyFailed as err:\n    _pythoneda_no_error_so_far = False\n    logging.getLogger(\"" : String).data ++ X := by
    intro X
    rw [← List.append_assoc]
    congr 1
  rw [h3, h2]

theorem git_add_code_decomp (f i : String) :
    git_add_code f i =
      "\ntry:\n    GitAdd(\"" ++ f ++
        "\").add_all()\nexcept GitAddAllFailed as err:\n    _pythoneda_no_error_so_far = False\n    " ++
        ("logging.getLogger(\"" ++ i ++ "\").error(err)") ++ "\n        " := by
  apply String.ext
  simp only [git_add_code, String.data_append, List.append_assoc]
  have h3 : ("\").error(err)" : String).data ++ ("\n        " : String).data =
      ("\").error(err)\n        " : String).data := by decide
  have h2 : ∀ X : List Char,
      ("\").add_all()\nexcept GitAddAllFailed as err:\n    _pythoneda_no_error_so_far = False\n    " : String).data ++
        (("logging.getLogger(\"" : String).data ++ X) =
      ("\").add_all()\nexcept GitAddAllFailed as err:\n    _pythoneda_no_error_so_far = False\n    logging.getLogger(\"" : String).data ++ X := by
    intro X
    rw [← List.append_assoc]
    congr 1
  rw [h3, h2]

theorem emit_event_code_decomp (c : Change) (i : String) :
    emit_event_code c i =
      ("\nclass CodeRequest(PythonedaContext):\n\n    async def emit_event(self):\n        from pythoneda import EventEmitter, Ports\n        from pythoneda.shared.artifact_changes import Change\n        from pythoneda.shared.artifact_changes.events import ChangeStaged\n\n        print(\"Emitting ChangeStaged event\")\n        await Ports.instance().resolve(EventEmitter).emit(\n            ChangeStaged(\n                Change.from_json(\n                    " ++ jsonDumps c.to_json ++ "),\n                ") ++
      ("\x27" ++ i ++ "\x27))") ++
      ("\n        print(\"ChangeStaged event emitted!\")\nimport nest_asyncio\nnest_asyncio.apply()\nloop = asyncio.get_event_loop()\nloop.run_until_complete(CodeRequest.main(\"" ++ i ++ "\"))\n        ") := by
  apply String.ext
  simp only [emit_event_code, String.data_append, List.append_assoc]
  have hC : ∀ X : List Char,
      ("\x27))" : String).data ++
        (("\n        print(\"ChangeStaged event emitted!\")\nimport nest_asyncio\nnest_asyncio.apply()\nloop = asyncio.get_event_loop()\nloop.run_until_complete(CodeRequest.main(\"" : String).data ++ X) =
      ("\x27))\n        print(\"ChangeStaged event emitted!\")\nimport nest_asyncio\nnest_asyncio.apply()\nloop = asyncio.get_event_loop()\nloop.run_until_complete(CodeRequest.main(\"" : String).data ++ X := by
    intro X
    rw [← List.append_assoc]
    congr 1
  have hB : ∀ X : List Char,
      ("),\n                " : String).data ++ (("\x27" : String).data ++ X) =
      ("),\n                \x27" : String).data ++ X := by
    intro X
    rw [← List.append_assoc]
    congr 1
  rw [hC, hB]

/-- An occurrence of a (non-empty) pattern inside `X ++ Y` either lies
inside `X`, or survives dropping all but the last `pat.length - 1` elements
of `X`; used to decide non-occurrence in long concatenations piecewise. -/
theorem infix_of_append_split {α : Type} (pat X Y : List α) (n : Nat)
    (hpat : pat ≠ []) (hn : n + pat.length ≤ X.length + 1)
    (h : pat <:+: X ++ Y) : pat <:+: X ∨ pat <:+: (X.drop n ++ Y) := by
  obtain ⟨s, t, hst⟩ := h
  by_cases hc : s.length + pat.length ≤ X.length
  · left
    have h1 : (s ++ pat ++ t).take X.length = X := by
      rw [hst]
      exact List.take_left X Y
    rw [List.take_append_eq_append_take,
      List.take_of_length_le (by simp; omega)] at h1
    exact ⟨s, t.take (X.length - (s ++ pat).length), h1⟩
  · right
    have hps : 0 < pat.length := List.length_pos.mpr hpat
    have hns : n ≤ s.length := by omega
    have hnx : n ≤ X.length := by omega
    have hd := congrArg (List.drop n) hst
    rw [List.drop_append_eq_append_drop, List.drop_append_eq_append_drop,
      List.drop_append_eq_append_drop,
      Nat.sub_eq_zero_of_le hns,
      Nat.sub_eq_zero_of_le (by simp; omega : n ≤ (s ++ pat).length),
      Nat.sub_eq_zero_of_le hnx, List.drop_zero, List.drop_zero] at hd
    exact ⟨s.drop n, t, hd⟩

/-! ## The claims -/

/-- **C1**: for every Change Description with non-empty unified-diff text,
the Document produced by the handler consists of thirteen segments whose
kinds, in append order, are markdown (intro) followed by six
markdown-then-code pairs (dependencies, diff materialization, stash, apply,
stage, completion emission), never reordered. -/
theorem c1_segment_kinds_fixed_order (e : ChangeStagingCodeRequested)
    (t : String) (h : e.change.unidiff_text = some t) (_hne : t ≠ "") :
    ((listen_ChangeStagingCodeRequested e).result.map
      (fun r => r.code_request.segments.map Segment.kind)) =
    some [SegmentKind.markdown,
      SegmentKind.markdown, SegmentKind.code,
      SegmentKind.markdown, SegmentKind.code,
      SegmentKind.markdown, SegmentKind.code,
      SegmentKind.markdown, SegmentKind.code,
      SegmentKind.markdown, SegmentKind.code,
      SegmentKind.markdown, SegmentKind.code] := by
  obtain ⟨⟨f, u, b, ut⟩, i⟩ := e
  have h' : ut = some t := h
  subst h'
  rfl

/-- Witness for C1 at a concrete request. -/
theorem c1_segment_kinds_fixed_order_witness :
    ((listen_ChangeStagingCodeRequested
      ⟨⟨"/r", "https://example.com/r", "main", some "+a\n"⟩, "id-1"⟩).result.map
      (fun r => r.code_request.segments.map Segment.kind)) =
    some [SegmentKind.markdown,
      SegmentKind.markdown, SegmentKind.code,
      SegmentKind.markdown, SegmentKind.code,
      SegmentKind.markdown, SegmentKind.code,
      SegmentKind.markdown, SegmentKind.code,
      SegmentKind.markdown, SegmentKind.code,
      SegmentKind.markdown, SegmentKind.code] :=
  c1_segment_kinds_fixed_order _ "+a\n" rfl (by decide)

/-- **C2** counterexample: the source only short-circuits on `None`
(`if event.change.unidiff_text is None`), so a present-but-empty diff text
is *not* discarded: the handler builds a Document and emits once, refuting
the claim's "absent or empty" condition for the empty string. -/
theorem c2_counterexample_empty_diff_still_emits :
    ((listen_ChangeStagingCodeRequested
      ⟨⟨"/repo", "https://example.com/r", "main", some ""⟩, "c2-id"⟩).result).isSome
      = true ∧
    ((listen_ChangeStagingCodeRequested
      ⟨⟨"/repo", "https://example.com/r", "main", some ""⟩, "c2-id"⟩).emitted).length
      = 1 :=
  ⟨rfl, rfl⟩

/-- **C2** (amended): for every Change Description whose unified-diff text
is absent (`None`), the handler produces no Document and makes zero calls to
the emission collaborator; an empty-but-present diff text is not
short-circuited. -/
theorem c2_none_diff_no_emission (e : ChangeStagingCodeRequested)
    (h : e.change.unidiff_text = none) :
    (listen_ChangeStagingCodeRequested e).result = none ∧
    (listen_ChangeStagingCodeRequested e).emitted = [] := by
  obtain ⟨⟨f, u, b, ut⟩, i⟩ := e
  have h' : ut = none := h
  subst h'
  exact ⟨rfl, rfl⟩

/-- Witness for the amended C2 at a concrete request. -/
theorem c2_none_diff_no_emission_witness :
    (listen_ChangeStagingCodeRequested
      ⟨⟨"/repo", "https://example.com/r", "main", none⟩, "c2-w"⟩).result = none ∧
    (listen_ChangeStagingCodeRequested
      ⟨⟨"/repo", "https://example.com/r", "main", none⟩, "c2-w"⟩).emitted = [] :=
  c2_none_diff_no_emission _ rfl

/-- **C5**: in any Document, the aggregate dependency set keeps exactly one
entry per declared name — the first declaration in segment-append order —
whatever the later declarations' versions or locators: filtering the
aggregate by a name yields precisely the first matching declaration of the
concatenated per-segment declaration lists. -/
theorem c5_dependency_dedup_first_seen (cr : JupyterlabCodeRequest)
    (n : String) :
    cr.dependencies.filter (fun d => d.name == n) =
      ((cr.segments.flatMap Segment.declaredDeps).find?
        (fun d => d.name == n)).toList :=
  filter_dedupByName _ n

/-- **C6**: the correlation id carried on the produced
`ChangeStagingCodeDescribed` is the triggering event's id, and the handler
emits exactly its returned artifact (so the emitted artifact carries the
same id). -/
theorem c6_correlation_id_preserved (e : ChangeStagingCodeRequested) :
    (((listen_ChangeStagingCodeRequested e).result.map
      ChangeStagingCodeDescribed.id).getD e.id) = e.id ∧
    (listen_ChangeStagingCodeRequested e).emitted =
      (listen_ChangeStagingCodeRequested e).result.toList := by
  obtain ⟨⟨f, u, b, ut⟩, i⟩ := e
  cases ut <;> exact ⟨rfl, rfl⟩

/-- **C3** counterexample: at a concrete request, the generated apply code
segment and stage code segment contain no `if` at all — in particular no
check of the `_pythoneda_no_error_so_far` flag guards the `GitApply` or
`GitAdd` calls — refuting "applies/stages only if the run-continues flag is
still true". -/
theorem c3_counterexample_no_flag_check :
    ((listen_ChangeStagingCodeRequested
      ⟨⟨"/repo", "https://example.com/r", "main", some "+line1\n"⟩, "c3-id"⟩).result.map
      (fun r => (r.code_request.segments.get? 8).map Segment.text)) =
      some (some (git_apply_code "/repo" "c3-id")) ∧
    ((listen_ChangeStagingCodeRequested
      ⟨⟨"/repo", "https://example.com/r", "main", some "+line1\n"⟩, "c3-id"⟩).result.map
      (fun r => (r.code_request.segments.get? 10).map Segment.text)) =
      some (some (git_add_code "/repo" "c3-id")) ∧
    ¬ (("if" : String).data <:+: (git_apply_code "/repo" "c3-id").data) ∧
    ¬ (("if" : String).data <:+: (git_add_code "/repo" "c3-id").data) :=
  ⟨rfl, rfl, by decide, by decide⟩

/-- **C3** (amended): for every Change Description with non-empty diff text,
the generated apply code segment applies the materialized diff and the stage
code segment stages changes *unconditionally* — each is exactly a try/except
template with no check of the run-continues flag — and each, on failure,
flips the flag to false and logs keyed by the correlation id instead of
raising. -/
theorem c3_apply_stage_unconditional (e : ChangeStagingCodeRequested)
    (t : String) (h : e.change.unidiff_text = some t) (_hne : t ≠ "") :
    ((listen_ChangeStagingCodeRequested e).result.map
      (fun r => r.code_request.segments.get? 8)) =
      some (some (Segment.code
        (git_apply_code e.change.repository_folder e.id) dependencies)) ∧
    ((listen_ChangeStagingCodeRequested e).result.map
      (fun r => r.code_request.segments.get? 10)) =
      some (some (Segment.code
        (git_add_code e.change.repository_folder e.id) dependencies)) ∧
    (("_pythoneda_no_error_so_far = False" : String).data <:+:
      (git_apply_code e.change.repository_folder e.id).data) ∧
    (("logging.getLogger(\"" ++ e.id ++ "\").error(err)").data <:+:
      (git_apply_code e.change.repository_folder e.id).data) ∧
    (("_pythoneda_no_error_so_far = False" : String).data <:+:
      (git_add_code e.change.repository_folder e.id).data) ∧
    (("logging.getLogger(\"" ++ e.id ++ "\").error(err)").data <:+:
      (git_add_code e.change.repository_folder e.id).data) := by
  obtain ⟨⟨f, u, b, ut⟩, i⟩ := e
  have h' : ut = some t := h
  subst h'
  refine ⟨rfl, rfl, ?_, ?_, ?_, ?_⟩
  · have hmid : ("_pythoneda_no_error_so_far = False" : String).data <:+:
        ("\").apply(patchfile.name)\nexcept GitApplyFailed as err:\n    _pythoneda_no_error_so_far = False\n    logging.getLogger(\"" : String).data := by
      decide
    have hwhole :
        ("\").apply(patchfile.name)\nexcept GitApplyFailed as err:\n    _pythoneda_no_error_so_far = False\n    logging.getLogger(\"" : String).data <:+:
          (git_apply_code f i).data := by
      simp only [git_apply_code, String.data_append]
      exact ⟨("\ntry:\n    GitApply(\"" : String).data ++ f.data,
        i.data ++ ("\").error(err)\n        " : String).data,
        by simp [List.append_assoc]⟩
    exact hmid.trans hwhole
  · rw [git_apply_code_decomp, String.data_append, String.data_append]
    exact List.infix_append _ _ _
  · have hmid : ("_pythoneda_no_error_so_far = False" : String).data <:+:
        ("\").add_all()\nexcept GitAddAllFailed as err:\n    _pythoneda_no_error_so_far = False\n    logging.getLogger(\"" : String).data := by
      decide
    have hwhole :
        ("\").add_all()\nexcept GitAddAllFailed as err:\n    _pythoneda_no_error_so_far = False\n    logging.getLogger(\"" : String).data <:+:
          (git_add_code f i).data := by
      simp only [git_add_code, String.data_append]
      exact ⟨("\ntry:\n    GitAdd(\"" : String).data ++ f.data,
        i.data ++ ("\").error(err)\n        " : String).data,
        by simp [List.append_assoc]⟩
    exact hmid.trans hwhole
  · rw [git_add_code_decomp, String.data_append, String.data_append]
    exact List.infix_append _ _ _

/-- Witness for the amended C3 at a concrete request. -/
theorem c3_apply_stage_unconditional_witness :
    ((listen_ChangeStagingCodeRequested
      ⟨⟨"/repo", "https://example.com/r", "main", some "+a\n"⟩, "c3-w"⟩).result.map
      (fun r => r.code_request.segments.get? 8)) =
      some (some (Segment.code (git_apply_code "/repo" "c3-w") dependencies)) ∧
    ((listen_ChangeStagingCodeRequested
      ⟨⟨"/repo", "https://example.com/r", "main", some "+a\n"⟩, "c3-w"⟩).result.map
      (fun r => r.code_request.segments.get? 10)) =
      some (some (Segment.code (git_add_code "/repo" "c3-w") dependencies)) ∧
    (("_pythoneda_no_error_so_far = False" : String).data <:+:
      (git_apply_code "/repo" "c3-w").data) ∧
    (("logging.getLogger(\"" ++ "c3-w" ++ "\").error(err)").data <:+:
      (git_apply_code "/repo" "c3-w").data) ∧
    (("_pythoneda_no_error_so_far = False" : String).data <:+:
      (git_add_code "/repo" "c3-w").data) ∧
    (("logging.getLogger(\"" ++ "c3-w" ++ "\").error(err)").data <:+:
      (git_add_code "/repo" "c3-w").data) :=
  c3_apply_stage_unconditional
    ⟨⟨"/repo", "https://example.com/r", "main", some "+a\n"⟩, "c3-w"⟩
    "+a\n" rfl (by decide)

/-- **C4**: for every Change Description with non-None diff text, the
completion-emission code segment (segment 12) is exactly the emission
template, which contains no check of the run-continues flag (demonstrated on
a representative instantiation), feeds `Change.from_json` the
`json.dumps`-serialized original change — an encoding a JSON string reader
inverts exactly — and tags the emitted `ChangeStaged` with the triggering
request's correlation id, which appears quoted in the generated call. -/
theorem c4_emission_unconditional (e : ChangeStagingCodeRequested)
    (t : String) (h : e.change.unidiff_text = some t) :
    ((listen_ChangeStagingCodeRequested e).result.map
      (fun r => r.code_request.segments.get? 12)) =
      some (some (Segment.code
        (emit_event_code e.change e.id) dependencies)) ∧
    jsonLoads (jsonDumps (Change.to_json e.change)) =
      some (Change.to_json e.change) ∧
    (("\x27" ++ e.id ++ "\x27))").data <:+:
      (emit_event_code e.change e.id).data) ∧
    (("Change.from_json(" : String).data <:+:
      (emit_event_code e.change e.id).data) ∧
    ¬ (("_pythoneda_no_error_so_far" : String).data <:+:
      (emit_event_code ⟨"/repo", "https://example.com/r", "main",
        some "+line1\n"⟩ "c4-id").data) := by
  obtain ⟨⟨f, u, b, ut⟩, i⟩ := e
  have h' : ut = some t := h
  subst h'
  refine ⟨rfl, jsonLoads_jsonDumps _ (mem_to_json_toNat_lt _), ?_, ?_, ?_⟩
  · rw [emit_event_code_decomp, String.data_append, String.data_append]
    exact List.infix_append _ _ _
  · have hmid : ("Change.from_json(" : String).data <:+:
        ("\nclass CodeRequest(PythonedaContext):\n\n    async def emit_event(self):\n        from pythoneda import EventEmitter, Ports\n        from pythoneda.shared.artifact_changes import Change\n        from pythoneda.shared.artifact_changes.events import ChangeStaged\n\n        print(\"Emitting ChangeStaged event\")\n        await Ports.instance().resolve(EventEmitter).emit(\n            ChangeStaged(\n                Change.from_json(\n                    " : String).data := by
      decide
    have hwhole :
        ("\nclass CodeRequest(PythonedaContext):\n\n    async def emit_event(self):\n        from pythoneda import EventEmitter, Ports\n        from pythoneda.shared.artifact_changes import Change\n        from pythoneda.shared.artifact_changes.events import ChangeStaged\n\n        print(\"Emitting ChangeStaged event\")\n        await Ports.instance().resolve(EventEmitter).emit(\n            ChangeStaged(\n                Change.from_json(\n                    " : String).data <:+:
          (emit_event_code ⟨f, u, b, some t⟩ i).data := by
      simp only [emit_event_code, String.data_append]
      exact ⟨[], (jsonDumps (Change.to_json ⟨f, u, b, some t⟩)).data ++
        (("),\n                \x27" : String).data ++ (i.data ++
          (("\x27))\n        print(\"ChangeStaged event emitted!\")\nimport nest_asyncio\nnest_asyncio.apply()\nloop = asyncio.get_event_loop()\nloop.run_until_complete(CodeRequest.main(\"" : String).data ++
            (i.data ++ ("\"))\n        " : String).data)))),
        by simp [List.append_assoc]⟩
    exact hmid.trans hwhole
  · intro hcontra
    simp only [emit_event_code, String.data_append, List.append_assoc] at hcontra
    rcases infix_of_append_split _ _ _ 416 (by decide) (by decide) hcontra with
      hl | hr
    · exact absurd hl (by decide)
    · exact absurd hr (by decide)

/-- Witness for C4 at a concrete request. -/
theorem c4_emission_unconditional_witness :
    ((listen_ChangeStagingCodeRequested
      ⟨⟨"/repo", "https://example.com/r", "main", some "+line1\n"⟩, "c4-id"⟩).result.map
      (fun r => r.code_request.segments.get? 12)) =
      some (some (Segment.code
        (emit_event_code
          ⟨"/repo", "https://example.com/r", "main", some "+line1\n"⟩ "c4-id")
        dependencies)) ∧
    jsonLoads (jsonDumps (Change.to_json
      ⟨"/repo", "https://example.com/r", "main", some "+line1\n"⟩)) =
      some (Change.to_json
        ⟨"/repo", "https://example.com/r", "main", some "+line1\n"⟩) ∧
    (("\x27" ++ "c4-id" ++ "\x27))").data <:+:
      (emit_event_code
        ⟨"/repo", "https://example.com/r", "main", some "+line1\n"⟩ "c4-id").data) ∧
    (("Change.from_json(" : String).data <:+:
      (emit_event_code
        ⟨"/repo", "https://example.com/r", "main", some "+line1\n"⟩ "c4-id").data) ∧
    ¬ (("_pythoneda_no_error_so_far" : String).data <:+:
      (emit_event_code ⟨"/repo", "https://example.com/r", "main",
        some "+line1\n"⟩ "c4-id").data) :=
  c4_emission_unconditional
    ⟨⟨"/repo", "https://example.com/r", "main", some "+line1\n"⟩, "c4-id"⟩
    "+line1\n" rfl

/-- **C7**: for every Change Description with non-None diff text, the
diff-materialization code segment (segment 4) is exactly the template that
creates the temporary file with `delete=False` (never deleted automatically)
and writes the `json.dumps`-escaped payload — an encoding that a JSON string
reader inverts exactly, so quotes, newlines and other special characters in
the diff cannot corrupt the generated script (stated for payloads of
basic-plane characters; astral characters are escaped as surrogate pairs). -/
theorem c7_diff_materialization (e : ChangeStagingCodeRequested)
    (t : String) (h : e.change.unidiff_text = some t)
    (hbmp : ∀ c ∈ t.data, c.toNat < 65536) :
    ((listen_ChangeStagingCodeRequested e).result.map
      (fun r => r.code_request.segments.get? 4)) =
      some (some (Segment.code (create_diff_code t) dependencies)) ∧
    (("patchfile = tempfile.NamedTemporaryFile(mode=\x27w+\x27, delete=False)" : String).data <:+:
      (create_diff_code t).data) ∧
    ((jsonDumps t).data <:+: (create_diff_code t).data) ∧
    jsonLoads (jsonDumps t) = some t := by
  obtain ⟨⟨f, u, b, ut⟩, i⟩ := e
  have h' : ut = some t := h
  subst h'
  refine ⟨rfl, ?_, ?_, jsonLoads_jsonDumps t hbmp⟩
  · have hmid :
        ("patchfile = tempfile.NamedTemporaryFile(mode=\x27w+\x27, delete=False)" : String).data <:+:
        ("\npatchfile = tempfile.NamedTemporaryFile(mode=\x27w+\x27, delete=False)\npatchfile.write(" : String).data := by
      decide
    have hwhole :
        ("\npatchfile = tempfile.NamedTemporaryFile(mode=\x27w+\x27, delete=False)\npatchfile.write(" : String).data <:+:
          (create_diff_code t).data := by
      simp only [create_diff_code, String.data_append]
      exact ⟨[], (jsonDumps t).data ++ (")\npatchfile.close()\n        " : String).data,
        by simp [List.append_assoc]⟩
    exact hmid.trans hwhole
  · simp only [create_diff_code, String.data_append]
    exact ⟨("\npatchfile = tempfile.NamedTemporaryFile(mode=\x27w+\x27, delete=False)\npatchfile.write(" : String).data,
      (")\npatchfile.close()\n        " : String).data,
      by simp [List.append_assoc]⟩

/-- Witness for C7 at a concrete request whose diff text contains a quote,
a backslash and a newline. -/
theorem c7_diff_materialization_witness :
    ((listen_ChangeStagingCodeRequested
      ⟨⟨"/repo", "https://example.com/r", "main", some "a\"b\\c\nd"⟩, "c7-w"⟩).result.map
      (fun r => r.code_request.segments.get? 4)) =
      some (some (Segment.code (create_diff_code "a\"b\\c\nd") dependencies)) ∧
    (("patchfile = tempfile.NamedTemporaryFile(mode=\x27w+\x27, delete=False)" : String).data <:+:
      (create_diff_code "a\"b\\c\nd").data) ∧
    ((jsonDumps "a\"b\\c\nd").data <:+: (create_diff_code "a\"b\\c\nd").data) ∧
    jsonLoads (jsonDumps "a\"b\\c\nd") = some "a\"b\\c\nd" :=
  c7_diff_materialization
    ⟨⟨"/repo", "https://example.com/r", "main", some "a\"b\\c\nd"⟩, "c7-w"⟩
    "a\"b\\c\nd" rfl (by decide)

/-- **C8** counterexample: for the spec's scenario input (diff
`"+line1\n-line2\n"`, folder `/repo`, branch `main`) the produced Document
has 13 segments, not 7 as claimed. -/
theorem c8_counterexample_thirteen_segments :
    ((listen_ChangeStagingCodeRequested
      ⟨⟨"/repo", "https://example.com/r", "main", some "+line1\n-line2\n"⟩,
        "c8-id"⟩).result.map
      (fun r => r.code_request.segments.length)) = some 13 ∧
    ¬ ((listen_ChangeStagingCodeRequested
      ⟨⟨"/repo", "https://example.com/r", "main", some "+line1\n-line2\n"⟩,
        "c8-id"⟩).result.map
      (fun r => r.code_request.segments.length)) = some 7 :=
  ⟨rfl, by decide⟩

/-- **C8** (amended): for the scenario input the Document has exactly 13
segments in the fixed markdown/code order, and the diff-materialize code
segment's text contains the literal substring `+line1`, safely embedded with
no triple-quote collision. -/
theorem c8_scenario_thirteen_segments_plus_line1 :
    ((listen_ChangeStagingCodeRequested
      ⟨⟨"/repo", "https://example.com/r", "main", some "+line1\n-line2\n"⟩,
        "c8-id"⟩).result.map
      (fun r => r.code_request.segments.map Segment.kind)) =
    some [SegmentKind.markdown,
      SegmentKind.markdown, SegmentKind.code,
      SegmentKind.markdown, SegmentKind.code,
      SegmentKind.markdown, SegmentKind.code,
      SegmentKind.markdown, SegmentKind.code,
      SegmentKind.markdown, SegmentKind.code,
      SegmentKind.markdown, SegmentKind.code] ∧
    ((listen_ChangeStagingCodeRequested
      ⟨⟨"/repo", "https://example.com/r", "main", some "+line1\n-line2\n"⟩,
        "c8-id"⟩).result.map
      (fun r => (r.code_request.segments.get? 4).map Segment.text)) =
      some (some (create_diff_code "+line1\n-line2\n")) ∧
    (("+line1" : String).data <:+: (create_diff_code "+line1\n-line2\n").data) ∧
    ¬ (("\"\"\"" : String).data <:+: (create_diff_code "+line1\n-line2\n").data) :=
  ⟨rfl, rfl, by decide, by decide⟩

/-- **C9** counterexample: the handler itself performs the emission (its
emission trace has one element) and its return value is the wrapped
`ChangeStagingCodeDescribed` artifact carrying the correlation id — not the
Document alone, and not left unemitted for a caller. -/
theorem c9_counterexample_handler_emits_and_returns_artifact :
    ((listen_ChangeStagingCodeRequested
      ⟨⟨"/repo", "https://example.com/r", "main", some "+x\n"⟩, "c9-id"⟩).emitted).length
      = 1 ∧
    ((listen_ChangeStagingCodeRequested
      ⟨⟨"/repo", "https://example.com/r", "main", some "+x\n"⟩, "c9-id"⟩).result.map
      ChangeStagingCodeDescribed.id) = some "c9-id" :=
  ⟨rfl, rfl⟩

/-- **C9** (amended): there is no separate Builder/Handler split — for every
request with non-None diff text the single handler function wraps the
13-segment Document together with the correlation id into the
`ChangeStagingCodeDescribed` artifact, emits exactly that artifact itself,
and returns the artifact (not the Document alone). -/
theorem c9_handler_wraps_emits_returns_artifact
    (e : ChangeStagingCodeRequested) (t : String)
    (h : e.change.unidiff_text = some t) :
    (listen_ChangeStagingCodeRequested e).result.isSome = true ∧
    (listen_ChangeStagingCodeRequested e).emitted =
      (listen_ChangeStagingCodeRequested e).result.toList ∧
    ((listen_ChangeStagingCodeRequested e).result.map
      ChangeStagingCodeDescribed.id) = some e.id ∧
    ((listen_ChangeStagingCodeRequested e).result.map
      (fun r => r.code_request.segments.length)) = some 13 := by
  obtain ⟨⟨f, u, b, ut⟩, i⟩ := e
  have h' : ut = some t := h
  subst h'
  exact ⟨rfl, rfl, rfl, rfl⟩

/-- Witness for the amended C9 at a concrete request. -/
theorem c9_handler_wraps_emits_returns_artifact_witness :
    (listen_ChangeStagingCodeRequested
      ⟨⟨"/repo", "https://example.com/r", "main", some "+y\n"⟩, "c9-w"⟩).result.isSome
      = true ∧
    (listen_ChangeStagingCodeRequested
      ⟨⟨"/repo", "https://example.com/r", "main", some "+y\n"⟩, "c9-w"⟩).emitted =
      (listen_ChangeStagingCodeRequested
        ⟨⟨"/repo", "https://example.com/r", "main", some "+y\n"⟩, "c9-w"⟩).result.toList ∧
    ((listen_ChangeStagingCodeRequested
      ⟨⟨"/repo", "https://example.com/r", "main", some "+y\n"⟩, "c9-w"⟩).result.map
      ChangeStagingCodeDescribed.id) = some "c9-w" ∧
    ((listen_ChangeStagingCodeRequested
      ⟨⟨"/repo", "https://example.com/r", "main", some "+y\n"⟩, "c9-w"⟩).result.map
      (fun r => r.code_request.segments.length)) = some 13 :=
  c9_handler_wraps_emits_returns_artifact
    ⟨⟨"/repo", "https://example.com/r", "main", some "+y\n"⟩, "c9-w"⟩ "+y\n" rfl

/-- **C10**: only the diff payload is JSON-escaped when embedded into
generated code (segment 4 goes through `jsonDumps`); the repository folder
and the correlation id are interpolated verbatim into the stash, apply,
stage and emission segments — their raw character sequences occur as-is in
the generated texts — so a folder containing a quote character yields that
quote unescaped inside a generated string literal, as the concrete
`GitStash("a"b")` instance shows. -/
theorem c10_folder_and_id_verbatim (e : ChangeStagingCodeRequested)
    (t : String) (h : e.change.unidiff_text = some t) :
    ((listen_ChangeStagingCodeRequested e).result.map
      (fun r => (r.code_request.segments.get? 4).map Segment.text)) =
      some (some (create_diff_code t)) ∧
    ((listen_ChangeStagingCodeRequested e).result.map
      (fun r => (r.code_request.segments.get? 6).map Segment.text)) =
      some (some (git_stash_push_code e.change.repository_folder e.id)) ∧
    (e.change.repository_folder.data <:+:
      (git_stash_push_code e.change.repository_folder e.id).data) ∧
    (e.change.repository_folder.data <:+:
      (git_apply_code e.change.repository_folder e.id).data) ∧
    (e.change.repository_folder.data <:+:
      (git_add_code e.change.repository_folder e.id).data) ∧
    (e.id.data <:+:
      (git_stash_push_code e.change.repository_folder e.id).data) ∧
    (e.id.data <:+: (emit_event_code e.change e.id).data) ∧
    (("GitStash(\"a\"b\")" : String).data <:+:
      (git_stash_push_code "a\"b" "w-id").data) := by
  obtain ⟨⟨f, u, b, ut⟩, i⟩ := e
  have h' : ut = some t := h
  subst h'
  refine ⟨rfl, rfl, ?_, ?_, ?_, ?_, ?_, by decide⟩
  · simp only [git_stash_push_code, String.data_append]
    exact ⟨("\nstash_id = \"\"\ntry:\n    stash_id = GitStash(\"" : String).data,
      ("\").push()\n    print(stash_id)\nexcept GitStashPushFailed as err:\n    _pythoneda_no_error_so_far = False\n    logging.getLogger(\"" : String).data ++
        i.data ++ ("\").error(err)\n        " : String).data,
      by simp [List.append_assoc]⟩
  · simp only [git_apply_code, String.data_append]
    exact ⟨("\ntry:\n    GitApply(\"" : String).data,
      ("\").apply(patchfile.name)\nexcept GitApplyFailed as err:\n    _pythoneda_no_error_so_far = False\n    logging.getLogger(\"" : String).data ++
        i.data ++ ("\").error(err)\n        " : String).data,
      by simp [List.append_assoc]⟩
  · simp only [git_add_code, String.data_append]
    exact ⟨("\ntry:\n    GitAdd(\"" : String).data,
      ("\").add_all()\nexcept GitAddAllFailed as err:\n    _pythoneda_no_error_so_far = False\n    logging.getLogger(\"" : String).data ++
        i.data ++ ("\").error(err)\n        " : String).data,
      by simp [List.append_assoc]⟩
  · simp only [git_stash_push_code, String.data_append]
    exact ⟨("\nstash_id = \"\"\ntry:\n    stash_id = GitStash(\"" : String).data ++
      f.data ++
      ("\").push()\n    print(stash_id)\nexcept GitStashPushFailed as err:\n    _pythoneda_no_error_so_far = False\n    logging.getLogger(\"" : String).data,
      ("\").error(err)\n        " : String).data,
      by simp [List.append_assoc]⟩
  · simp only [emit_event_code, String.data_append]
    exact ⟨("\nclass CodeRequest(PythonedaContext):\n\n    async def emit_event(self):\n        from pythoneda import EventEmitter, Ports\n        from pythoneda.shared.artifact_changes import Change\n        from pythoneda.shared.artifact_changes.events import ChangeStaged\n\n        print(\"Emitting ChangeStaged event\")\n        await Ports.instance().resolve(EventEmitter).emit(\n            ChangeStaged(\n                Change.from_json(\n                    " : String).data ++
      (jsonDumps (Change.to_json ⟨f, u, b, some t⟩)).data ++
      ("),\n                \x27" : String).data,
      ("\x27))\n        print(\"ChangeStaged event emitted!\")\nimport nest_asyncio\nnest_asyncio.apply()\nloop = asyncio.get_event_loop()\nloop.run_until_complete(CodeRequest.main(\"" : String).data ++
        i.data ++ ("\"))\n        " : String).data,
      by simp [List.append_assoc]⟩

/-- Witness for C10 at a concrete request. -/
theorem c10_folder_and_id_verbatim_witness :
    ((listen_ChangeStagingCodeRequested
      ⟨⟨"/repo", "https://example.com/r", "main", some "+z\n"⟩, "c10-w"⟩).result.map
      (fun r => (r.code_request.segments.get? 4).map Segment.text)) =
      some (some (create_diff_code "+z\n")) ∧
    ((listen_ChangeStagingCodeRequested
      ⟨⟨"/repo", "https://example.com/r", "main", some "+z\n"⟩, "c10-w"⟩).result.map
      (fun r => (r.code_request.segments.get? 6).map Segment.text)) =
      some (some (git_stash_push_code "/repo" "c10-w")) ∧
    (("/repo" : String).data <:+: (git_stash_push_code "/repo" "c10-w").data) ∧
    (("/repo" : String).data <:+: (git_apply_code "/repo" "c10-w").data) ∧
    (("/repo" : String).data <:+: (git_add_code "/repo" "c10-w").data) ∧
    (("c10-w" : String).data <:+: (git_stash_push_code "/repo" "c10-w").data) ∧
    (("c10-w" : String).data <:+:
      (emit_event_code ⟨"/repo", "https://example.com/r", "main", some "+z\n"⟩
        "c10-w").data) ∧
    (("GitStash(\"a\"b\")" : String).data <:+:
      (git_stash_push_code "a\"b" "w-id").data) :=
  c10_folder_and_id_verbatim
    ⟨⟨"/repo", "https://example.com/r", "main", some "+z\n"⟩, "c10-w"⟩ "+z\n" rfl
